import Mathlib

/-!
Verification development for a command-line conversational assistant
(`SierraAgent` in `agent.py`, driven by `main.py`).

Shallow embedding conventions:
* The language-model gateway (`call_gpt`, and the chat-completions call made
  directly by `call_gpt_and_update_history`) is external and non-deterministic,
  so it is modelled as an oracle argument: `gpt : String → Option String` maps
  the prompt sent to either `some content` (a successful completion) or `none`
  (the underlying call raised an exception).  The persona chat call sends a
  full role-tagged message list, so its oracle is `chat : List Turn → Option String`.
* Blocking console input (`input(...)` in `handle_order_info`), the current
  US Pacific wall-clock hour (`datetime.now(pytz.timezone("US/Pacific")).hour`)
  and the random uuid (`str(uuid.uuid4())`) are explicit inputs collected in
  `Inputs`.
* Python `str` helpers used by the code (`split(",")`, `strip()`, `lower()`,
  `upper()`, slicing `[:4]`, `"sep".join(...)`, `sorted(...)`) are embedded as
  executable functions on `String` (`pySplitComma`, `pyStrip`, ...).
* `collections.defaultdict(list)` is embedded as an insertion-ordered
  association list `TagIndex`; `tagIndexGet` reproduces `defaultdict.__getitem__`
  (a lookup of a missing key inserts an empty entry), `tagIndexContains`
  reproduces `key in d` (which never inserts) and `tag_index_append` reproduces
  `d[key].append(x)`.
* Handlers additionally return the list of prompts they sent to the gateway,
  so that "makes no second model call" is a statement about the returned trace.
-/

/-- A product record from `data/ProductCatalog.json`, with the fields
`agent.py` reads (`ProductName`, `Description`, `Tags`). -/
structure Product where
  ProductName : String
  Description : String
  Tags : List String
deriving DecidableEq

/-- An order record from `data/CustomerOrders.json`, with the fields
`agent.py` reads (`Email`, `OrderNumber`, `Status`, `TrackingNumber`). -/
structure Order where
  Email : String
  OrderNumber : String
  Status : String
  TrackingNumber : String
deriving DecidableEq

/-- A role-tagged chat message, i.e. the dict `{"role": ..., "content": ...}`. -/
structure Turn where
  role : String
  content : String
deriving DecidableEq

/-- Python `c in " \t\n\r"`-style whitespace test matching `str.strip()`
on the ASCII whitespace the code can meet. -/
def pyIsSpace (c : Char) : Bool :=
  c == ' ' || c == '\t' || c == '\n' || c == '\r'

/-- Python `str.strip()`: drop leading and trailing whitespace. -/
def pyStrip (s : String) : String :=
  ⟨((s.data.dropWhile pyIsSpace).reverse.dropWhile pyIsSpace).reverse⟩

/-- Python `str.split(",")` on a list of characters: split at every comma,
keeping empty pieces. -/
def pySplitCommaAux : List Char → List (List Char)
  | [] => [[]]
  | c :: rest =>
    match pySplitCommaAux rest with
    | [] => [[c]]
    | g :: gs => if c == ',' then [] :: g :: gs else (c :: g) :: gs

/-- Python `str.split(",")`. -/
def pySplitComma (s : String) : List String :=
  (pySplitCommaAux s.data).map (fun cs => ⟨cs⟩)

/-- Python `str.lower()` (ASCII case mapping, which covers the tag data). -/
def pyLower (s : String) : String :=
  ⟨s.data.map Char.toLower⟩

/-- Python `str.upper()` (ASCII case mapping). -/
def pyUpper (s : String) : String :=
  ⟨s.data.map Char.toUpper⟩

/-- Python slicing `s[:n]`. -/
def pyTake (n : Nat) (s : String) : String :=
  ⟨s.data.take n⟩

/-- Python `sep.join(parts)`. -/
def pyJoin (sep : String) : List String → String
  | [] => ""
  | [x] => x
  | x :: y :: rest => x ++ sep ++ pyJoin sep (y :: rest)

/-- Insert a string into an already sorted list (ascending). -/
def insertSorted (s : String) : List String → List String
  | [] => [s]
  | x :: xs => if s ≤ x then s :: x :: xs else x :: insertSorted s xs

/-- Python `sorted(...)` on strings (ascending insertion sort). -/
def sortStrings : List String → List String
  | [] => []
  | x :: xs => insertSorted x (sortStrings xs)

/-- The field `self.tag_index`: a `defaultdict(list)` mapping lowercase tag to the list
of products carrying that tag, embedded as an insertion-ordered association
list (Python dicts preserve key insertion order). -/
abbrev TagIndex := List (String × List Product)

/-- Python `key in d` on the tag index: a pure membership test (never inserts). -/
def tagIndexContains : TagIndex → String → Bool
  | [], _ => false
  | e :: rest, k => e.1 == k || tagIndexContains rest k

/-- The list stored under a key, `[]` when the key is absent (read-only view
used to state properties; the lookups made by the code go through `tagIndexGet`). -/
def tagIndexFind : TagIndex → String → List Product
  | [], _ => []
  | e :: rest, k => if e.1 == k then e.2 else tagIndexFind rest k

/-- Python `defaultdict.__getitem__`: returns the list stored under `k`, and, when
`k` is absent, also inserts a fresh empty entry for `k` (the defaultdict side
effect), returning the updated index. -/
def tagIndexGet : TagIndex → String → List Product × TagIndex
  | [], k => ([], [(k, [])])
  | e :: rest, k =>
    if e.1 == k then (e.2, e :: rest)
    else
      let r := tagIndexGet rest k
      (r.1, e :: r.2)

/-- The statement `self.tag_index[k].append(p)` during `__init__`: append `p` to the entry
for `k`, creating the entry (at the end, in insertion order) if absent. -/
def tag_index_append : TagIndex → String → Product → TagIndex
  | [], k, p => [(k, [p])]
  | e :: rest, k, p =>
    if e.1 == k then (e.1, e.2 ++ [p]) :: rest
    else e :: tag_index_append rest k p

/-- The `__init__` indexing loop: for each product in catalog order, for each
of its tags in order, append the product under the lowercased tag. -/
def insert_product (idx : TagIndex) (p : Product) : TagIndex :=
  p.Tags.foldl (fun i t => tag_index_append i (pyLower t) p) idx

/-- The index `self.tag_index` as built by `SierraAgent.__init__` from the catalog. -/
def build_tag_index (products : List Product) : TagIndex :=
  products.foldl insert_product []

/-- The mutable state of a `SierraAgent` instance (the loaded stores, the
tag index and the running conversation history). -/
structure AgentState where
  orders : List Order
  products : List Product
  tag_index : TagIndex
  history : List Turn
deriving DecidableEq

/-- The constructor `SierraAgent.__init__` given the decoded contents of the two data files:
empty history and the tag index built from the catalog. -/
def SierraAgent_init (orders : List Order) (products : List Product) : AgentState :=
  { orders := orders, products := products
    tag_index := build_tag_index products, history := [] }

/-- The fixed system persona instruction (`self.system_prompt`). -/
def system_prompt : String :=
  "You are Sierra, an adventurous and cheerful outdoor gear expert. " ++
  "Use friendly, trail-inspired language, emojis like 🏕️🌲⛰️, and stay helpful and CONCISE. 3 sentence limit for all responses. " ++
  "If a question is unrelated to Sierra Outfitters, still answer politely but stay in character."

/-- The apology string returned by `call_gpt` when the completion call throws. -/
def gpt_error_reply : String :=
  "Oops! Looks like I\x27m having trouble reaching the trailhead 🥾. Try again in a moment?"

/-- The gateway `SierraAgent.call_gpt`: send `prompt` as the sole message; on success
return the completion text with surrounding whitespace stripped, on any
exception log and return the fixed apology (never propagate). -/
def call_gpt (gpt : String → Option String) (prompt : String) : String :=
  match gpt prompt with
  | some content => pyStrip content
  | none => gpt_error_reply

/-- The apology string returned by `call_gpt_and_update_history` on failure. -/
def persona_error_reply : String :=
  "Something went off trail 🌲— please try again shortly!"

/-- The message list sent by `call_gpt_and_update_history`: the system persona
instruction, the full history, then the new message as a user turn. -/
def persona_messages (history : List Turn) (new_user_message : String) : List Turn :=
  ⟨"system", system_prompt⟩ :: history ++ [⟨"user", new_user_message⟩]

/-- The method `SierraAgent.call_gpt_and_update_history`: call the chat completion on
`persona_messages`; on success strip the reply and append both the new user
message and the reply to history; on exception return the fixed apology with
history untouched.  Returns (reply, new history). -/
def call_gpt_and_update_history (chat : List Turn → Option String)
    (history : List Turn) (new_user_message : String) : String × List Turn :=
  match chat (persona_messages history new_user_message) with
  | none => (persona_error_reply, history)
  | some content =>
    (pyStrip content,
     history ++ [⟨"user", new_user_message⟩, ⟨"assistant", pyStrip content⟩])

/-- The intent-classification prompt built by `SierraAgent.handle`. -/
def intent_prompt (user_input : String) : String :=
  "Classify the user\x27s message into one or more of the following intent categories:\n\n" ++
  "- order: The user is asking about the status of a specific order they have already placed. " ++
  "This includes questions about tracking, shipping, delivery dates, or order numbers.\n" ++
  "- recommendation: The user is asking what to buy, looking for gear suggestions, or requesting " ++
  "something similar to a product or need (e.g. \x27any good hiking backpacks?\x27).\n" ++
  "- early_riser: The user is asking for a discount, promotional code, or any deal. " ++
  "This includes general questions about promotions or requests for discounts.\n" ++
  "- general: The message doesn’t fit the above — e.g. general conversation, brand questions, greetings, etc.\n\n" ++
  "User message: \x27" ++ user_input ++ "\x27\n\n" ++
  "Respond with a comma-separated list of one or more intents from the list above. " ++
  "Use only the exact labels: order, recommendation, early_riser, general."

/-- Parsing of the classifier response in `handle`:
`[intent.strip() for intent in intent_response.split(",") if intent.strip()]`
(split on commas, strip, drop tokens that strip to empty). -/
def parseIntents (intent_response : String) : List String :=
  ((pySplitComma intent_response).map pyStrip).filter (fun t => !(t == ""))

/-- The not-found reply of `handle_order_info`. -/
def order_not_found_reply : String :=
  "Couldn\x27t find an order with that email and order number."

/-- The handler `SierraAgent.handle_order_info` after the two blocking `input()` calls
(their results are the `email` and `order_number` arguments): exact-match
linear scan over the order store, fixed-format hit/miss strings. -/
def handle_order_info (orders : List Order) (email order_number : String) : String :=
  match orders.find? (fun o => o.Email == email && o.OrderNumber == order_number) with
  | some o =>
    "Order " ++ order_number ++ " is " ++ o.Status ++ ". " ++
    "Tracking link: https://tools.usps.com/go/TrackConfirmAction?tLabels=" ++ o.TrackingNumber
  | none => order_not_found_reply

/-- The fixed fallback string of `handle_product_recommendation`. -/
def recommendation_fallback : String :=
  "Product Status: Couldn\x27t find anything that matches. Ask the user to describe what they\x27re looking for in a bit more detail."

/-- The tag-selection prompt of `handle_product_recommendation`. -/
def tag_selection_prompt (tag_csv query : String) : String :=
  "You are an assistant helping customers find gear.\n" ++
  "Available product tags are: " ++ tag_csv ++ ".\n" ++
  "User said: \x27" ++ query ++ "\x27\n" ++
  "Choose up to 8 relevant tags from the list based on the user\x27s request." ++
  "Respond with only the chosen tags, as a comma-separated list."

/-- The tag-selection prompt as actually assembled for a given tag index:
`tag_csv` is the sorted key list joined by `", "`. -/
def tag_selection_prompt_for (tag_index : TagIndex) (query : String) : String :=
  tag_selection_prompt (pyJoin ", " (sortStrings (tag_index.map Prod.fst))) query

/-- The product-selection prompt of `handle_product_recommendation`. -/
def product_selection_prompt (query summary_text : String) : String :=
  "You are an assistant helping customers find gear.\n" ++
  "User said: \x27" ++ query ++ "\x27\n" ++
  "Available products: " ++ summary_text ++
  "Choose ONE of the products that best matches the user\x27s request.\n" ++
  "Response format:" ++
  "Recommended Purchase for Customer: Product Name - Product Description\n" ++
  "If nothing relevant is available, return the following text: " ++ recommendation_fallback

/-- Parsing of the tag-selection response:
`[tag.strip() for tag in tag_response.split(",")]` (no empty-drop here). -/
def extractedTags (tag_response : String) : List String :=
  (pySplitComma tag_response).map pyStrip

/-- The `matched_products` loop: `for tag in valid_tags:
matched_products.extend(self.tag_index[tag])`, with the defaultdict
`__getitem__` side effect threaded through the index. -/
def gatherProducts (idx : TagIndex) : List String → List Product × TagIndex
  | [] => ([], idx)
  | t :: ts =>
    let g := tagIndexGet idx t
    let rest := gatherProducts g.2 ts
    (g.1 ++ rest.1, rest.2)

/-- The handler `SierraAgent.handle_product_recommendation`: tag-selection model call,
filter to tags present in the index, gather matched products, then either the
fixed fallback (no second call) or a product-selection model call.  Returns
(reply, tag index after the defaultdict lookups, prompts sent to the gateway). -/
def handle_product_recommendation (gpt : String → Option String)
    (tag_index : TagIndex) (query : String) : String × TagIndex × List String :=
  let p1 := tag_selection_prompt_for tag_index query
  let tag_response := call_gpt gpt p1
  let valid_tags := (extractedTags tag_response).filter (fun t => tagIndexContains tag_index t)
  let gathered := gatherProducts tag_index valid_tags
  if gathered.1.isEmpty then (recommendation_fallback, gathered.2, [p1])
  else
    let summary_text :=
      pyJoin "\n" (gathered.1.map (fun p => p.ProductName ++ " — " ++ p.Description))
    let p2 := product_selection_prompt query summary_text
    (call_gpt gpt p2, gathered.2, [p1, p2])

/-- The fixed non-qualifying reply of `handle_early_riser_promo`. -/
def early_riser_no_reply : String :=
  "The Early Riser promotion only runs from 8–10 AM Pacific Time. This user does not currently qualify."

/-- The handler `SierraAgent.handle_early_riser_promo`, with the current US Pacific local
hour (`datetime.now(pytz.timezone("US/Pacific")).hour`) and the fresh random
uuid string (`str(uuid.uuid4())`) as inputs: inside 8–10 AM mint the code
`"SIERRA-" + str(uuid.uuid4())[:4].upper()` and embed it in the qualification
message, otherwise the fixed non-qualifying string. -/
def handle_early_riser_promo (hour : Nat) (uuid4 : String) : String :=
  if 8 ≤ hour ∧ hour < 10 then
    let code := "SIERRA-" ++ pyUpper (pyTake 4 uuid4)
    "This user qualifies for the Early Riser promotion! They may use discount code " ++
      code ++ " for 10% off."
  else
    early_riser_no_reply

/-- The external, non-gateway inputs a turn can consume: the two console
`input()` answers of the order handler, the Pacific wall-clock hour and the
random uuid string of the promo handler. -/
structure Inputs where
  email : String
  order_number : String
  pacific_hour : Nat
  uuid4 : String

/-- The handler-dispatch block of `SierraAgent.handle` (the three `if ... in
intents` checks, in source order): returns the fragment list `responses`, the
tag index after any defaultdict lookups, and the prompts the fired handlers
sent to the gateway. -/
def runHandlers (gpt : String → Option String) (inp : Inputs) (st : AgentState)
    (user_input : String) (intents : List String) :
    List String × TagIndex × List String :=
  let r1 : List String :=
    if intents.contains "order" then
      [handle_order_info st.orders inp.email inp.order_number]
    else []
  let pr := handle_product_recommendation gpt st.tag_index user_input
  let r2 := if intents.contains "recommendation" then r1 ++ [pr.1] else r1
  let idx2 := if intents.contains "recommendation" then pr.2.1 else st.tag_index
  let tr2 : List String := if intents.contains "recommendation" then pr.2.2 else []
  let r3 :=
    if intents.contains "early_riser" then
      r2 ++ [handle_early_riser_promo inp.pacific_hour inp.uuid4]
    else r2
  (r3, idx2, tr2)

/-- The result of one `handle` turn: the reply, the agent state afterwards,
and the prompts sent through `call_gpt` during the turn. -/
structure HandleResult where
  reply : String
  state : AgentState
  gpt_prompts : List String
deriving DecidableEq

/-- The compiled prompt `handle` builds when fragments survive. -/
def compiled_prompt (user_input additional_info : String) : String :=
  "User question: " ++ user_input ++
  ". Use the following information to best answer the user\x27s question: " ++ additional_info

/-- The method `SierraAgent.handle`: classify the input, run the matching handlers, then
either send the raw input to the persona chat path (when no fragments were
produced or "general" was among the intents) or send the compiled prompt
embedding the fragments joined by newlines. -/
def handle (gpt : String → Option String) (chat : List Turn → Option String)
    (inp : Inputs) (st : AgentState) (user_input : String) : HandleResult :=
  let p := intent_prompt user_input
  let intents := parseIntents (call_gpt gpt p)
  let rh := runHandlers gpt inp st user_input intents
  if rh.1.isEmpty || intents.contains "general" then
    let r := call_gpt_and_update_history chat st.history user_input
    ⟨r.1, { st with tag_index := rh.2.1, history := r.2 }, p :: rh.2.2⟩
  else
    let cp := compiled_prompt user_input (pyJoin "\n" rh.1)
    let r := call_gpt_and_update_history chat st.history cp
    ⟨r.1, { st with tag_index := rh.2.1, history := r.2 }, p :: rh.2.2⟩

/-! ## Helper lemmas -/

/-- The lowercase hexadecimal digits; `str(uuid.uuid4())` begins with four of
these (the uuid string form is lowercase hex plus dashes), which is the only
environment fact the promo-code claim needs. -/
def hexLowerChars : List Char :=
  "0123456789abcdef".data

/-- An uppercase alphanumeric character (digit or uppercase letter). -/
def isUpperAlnum (c : Char) : Bool :=
  c.isDigit || c.isUpper

theorem hexLower_toUpper_isUpperAlnum :
    ∀ c ∈ hexLowerChars, isUpperAlnum c.toUpper = true := by decide

theorem contains_eq_false_of_forall_ne {l : List String} {a : String}
    (h : ∀ t ∈ l, t ≠ a) : l.contains a = false := by
  rw [← Bool.not_eq_true, List.contains_eq_any_beq, List.any_eq_true]
  rintro ⟨x, hx, hbeq⟩
  exact h x hx (beq_iff_eq.mp hbeq).symm

/-! ## Claims -/

/-- C8: for every prompt, if the underlying language-model call raises (the
oracle returns `none`), `call_gpt` returns the fixed apology string and never
propagates the failure (it is total, returning a plain string); on success it
returns the model text with surrounding whitespace stripped. -/
theorem c8_gateway_converts_failures (gpt : String → Option String) (prompt : String) :
    (gpt prompt = none → call_gpt gpt prompt = gpt_error_reply) ∧
    (∀ content, gpt prompt = some content → call_gpt gpt prompt = pyStrip content) := by
  constructor
  · intro h; simp [call_gpt, h]
  · intro c h; simp [call_gpt, h]

theorem c8_witness :
    call_gpt (fun _ => none) "hello" = gpt_error_reply ∧
    call_gpt (fun _ => some " hi there ") "hello" = "hi there" := by
  constructor
  · exact (c8_gateway_converts_failures (fun _ => none) "hello").1 rfl
  · have h := (c8_gateway_converts_failures (fun _ => some " hi there ") "hello").2 " hi there " rfl
    rw [h]; decide

/-- C2: the persona chat call is transactional on history: when the chat
completion succeeds with `content`, the history afterwards is the history
before plus exactly the new user turn and the stripped assistant reply, and
the stripped reply is returned; when it fails, the fixed apology is returned
and history is exactly the history before (no partial append). -/
theorem c2_history_transactional (chat : List Turn → Option String)
    (history : List Turn) (new_user_message : String) :
    (∀ content, chat (persona_messages history new_user_message) = some content →
      call_gpt_and_update_history chat history new_user_message =
        (pyStrip content,
         history ++ [⟨"user", new_user_message⟩, ⟨"assistant", pyStrip content⟩])) ∧
    (chat (persona_messages history new_user_message) = none →
      call_gpt_and_update_history chat history new_user_message =
        (persona_error_reply, history)) := by
  constructor
  · intro c h; simp [call_gpt_and_update_history, h]
  · intro h; simp [call_gpt_and_update_history, h]

theorem c2_witness :
    call_gpt_and_update_history (fun _ => some " Hi there! ") [] "hello" =
      ("Hi there!", [⟨"user", "hello"⟩, ⟨"assistant", "Hi there!"⟩]) ∧
    call_gpt_and_update_history (fun _ => none) [⟨"user", "a"⟩] "b" =
      (persona_error_reply, [⟨"user", "a"⟩]) := by
  constructor
  · have h := (c2_history_transactional (fun _ => some " Hi there! ") [] "hello").1
      " Hi there! " rfl
    rw [h]; decide
  · exact (c2_history_transactional (fun _ => none) [⟨"user", "a"⟩] "b").2 rfl

/-- C4: order lookup is exact-match only: when no stored order matches the
entered pair verbatim, the fixed not-found string is returned; when a stored
order matches it exactly (and is the only such order, matching the data
identity assumption of the data model), the reply is the fixed-format string
carrying the stored status of that order and the carrier URL with its stored tracking
number. -/
theorem c4_order_lookup_exact_match (orders : List Order) (email order_number : String) :
    ((∀ o ∈ orders, ¬(o.Email = email ∧ o.OrderNumber = order_number)) →
      handle_order_info orders email order_number = order_not_found_reply) ∧
    (∀ o ∈ orders, o.Email = email → o.OrderNumber = order_number →
      (∀ o2 ∈ orders, o2.Email = email → o2.OrderNumber = order_number → o2 = o) →
      handle_order_info orders email order_number =
        "Order " ++ order_number ++ " is " ++ o.Status ++ ". " ++
        "Tracking link: https://tools.usps.com/go/TrackConfirmAction?tLabels=" ++
        o.TrackingNumber) := by
  constructor
  · intro h
    have hf : orders.find? (fun o => o.Email == email && o.OrderNumber == order_number) = none := by
      rw [List.find?_eq_none]
      intro o ho
      simp only [Bool.and_eq_true, beq_iff_eq]
      exact h o ho
    simp [handle_order_info, hf]
  · intro o ho he hn huniq
    have hsome : (orders.find? (fun o => o.Email == email && o.OrderNumber == order_number)).isSome := by
      rw [List.find?_isSome]
      exact ⟨o, ho, by simp [he, hn]⟩
    obtain ⟨o2, ho2⟩ := Option.isSome_iff_exists.mp hsome
    have hmem := List.mem_of_find?_eq_some ho2
    have hp := List.find?_some ho2
    simp only [Bool.and_eq_true, beq_iff_eq] at hp
    have heq : o2 = o := huniq o2 hmem hp.1 hp.2
    subst heq
    simp [handle_order_info, ho2]

theorem c4_witness :
    handle_order_info [⟨"a@b.c", "W42", "shipped", "TN1"⟩] "a@b.c" "W42" =
      "Order W42 is shipped. Tracking link: https://tools.usps.com/go/TrackConfirmAction?tLabels=TN1" := by
  have h := (c4_order_lookup_exact_match [⟨"a@b.c", "W42", "shipped", "TN1"⟩] "a@b.c" "W42").2
    ⟨"a@b.c", "W42", "shipped", "TN1"⟩ (by decide) rfl rfl (by decide)
  rw [h]; decide

/-- C5: when the tag-selection response yields, after splitting on commas and
trimming, zero tokens that are keys of the tag index, the recommendation
handler returns the fixed fallback string verbatim, and the trace of prompts
it sent to the gateway is exactly the single tag-selection prompt (so no
second model call was made). -/
theorem c5_recommendation_fallback_no_second_call (gpt : String → Option String)
    (tag_index : TagIndex) (query : String)
    (h : (extractedTags (call_gpt gpt (tag_selection_prompt_for tag_index query))).filter
          (fun t => tagIndexContains tag_index t) = []) :
    (handle_product_recommendation gpt tag_index query).1 = recommendation_fallback ∧
    (handle_product_recommendation gpt tag_index query).2.2 =
      [tag_selection_prompt_for tag_index query] := by
  simp only [handle_product_recommendation, h]
  simp [gatherProducts]

theorem c5_witness :
    (handle_product_recommendation (fun _ => some "waterproof, socks")
        [("tents", [⟨"Tent", "A tent", ["Tents"]⟩])] "any tents?").1 =
      recommendation_fallback :=
  (c5_recommendation_fallback_no_second_call (fun _ => some "waterproof, socks")
    [("tents", [⟨"Tent", "A tent", ["Tents"]⟩])] "any tents?" (by decide)).1

/-- C3: with the Pacific local hour `h` and a fresh uuid string (whose first
four characters are lowercase hex digits) as inputs, `8 ≤ h < 10` yields a
qualification message embedding a code `"SIERRA-"` followed by exactly four
uppercase alphanumeric characters, and any other hour yields the fixed
non-qualifying string, identical across all such calls (it depends on
neither the hour nor the uuid). -/
theorem c3_early_riser_promo (hour : Nat) (uuid4 : String)
    (hu : 4 ≤ uuid4.data.length ∧ ∀ c ∈ uuid4.data.take 4, c ∈ hexLowerChars) :
    (8 ≤ hour ∧ hour < 10 →
      ∃ tail, handle_early_riser_promo hour uuid4 =
          "This user qualifies for the Early Riser promotion! They may use discount code " ++
            ("SIERRA-" ++ tail) ++ " for 10% off." ∧
        tail.length = 4 ∧ ∀ c ∈ tail.data, isUpperAlnum c = true) ∧
    (¬(8 ≤ hour ∧ hour < 10) →
      handle_early_riser_promo hour uuid4 = early_riser_no_reply) := by
  constructor
  · intro hq
    refine ⟨pyUpper (pyTake 4 uuid4), ?_, ?_, ?_⟩
    · rw [handle_early_riser_promo, if_pos hq]
    · simp only [pyUpper, pyTake, String.length, List.length_map, List.length_take]
      omega
    · intro c hc
      simp only [pyUpper, pyTake, List.mem_map] at hc
      obtain ⟨c0, hc0, rfl⟩ := hc
      exact hexLower_toUpper_isUpperAlnum c0 (hu.2 c0 hc0)
  · intro hq
    rw [handle_early_riser_promo, if_neg hq]

theorem c3_witness :
    handle_early_riser_promo 12 "ab12-rest-of-uuid" = early_riser_no_reply :=
  (c3_early_riser_promo 12 "ab12-rest-of-uuid" (by decide)).2 (by omega)

/-! ## Tag index lemmas -/

theorem tagIndexFind_append (idx : TagIndex) (k k' : String) (p : Product) :
    tagIndexFind (tag_index_append idx k p) k' =
      tagIndexFind idx k' ++ (if k == k' then [p] else []) := by
  induction idx with
  | nil =>
    by_cases h : k = k'
    · subst h; simp [tag_index_append, tagIndexFind]
    · simp [tag_index_append, tagIndexFind, h]
  | cons e rest ih =>
    by_cases h1 : e.1 = k
    · subst h1
      by_cases h2 : e.1 = k'
      · subst h2; simp [tag_index_append, tagIndexFind]
      · simp [tag_index_append, tagIndexFind, h2]
    · by_cases h2 : e.1 = k'
      · subst h2
        have hk : ¬(k = e.1) := fun h => h1 h.symm
        simp [tag_index_append, tagIndexFind, h1, ih, hk]
      · simp [tag_index_append, tagIndexFind, h1, h2, ih]

theorem tagIndexContains_append (idx : TagIndex) (k k' : String) (p : Product) :
    tagIndexContains (tag_index_append idx k p) k' =
      (tagIndexContains idx k' || k == k') := by
  induction idx with
  | nil =>
    by_cases h : k = k'
    · subst h; simp [tag_index_append, tagIndexContains]
    · simp [tag_index_append, tagIndexContains, h]
  | cons e rest ih =>
    by_cases h1 : e.1 = k
    · subst h1
      by_cases h2 : e.1 = k'
      · subst h2; simp [tag_index_append, tagIndexContains]
      · simp [tag_index_append, tagIndexContains, h2]
    · simp [tag_index_append, tagIndexContains, h1, ih, Bool.or_assoc]

theorem tagIndexFind_foldl_tags (tags : List String) (p : Product) (idx : TagIndex) (k : String) :
    tagIndexFind (tags.foldl (fun i t => tag_index_append i (pyLower t) p) idx) k =
      tagIndexFind idx k ++ ((tags.filter (fun t => pyLower t == k)).map (fun _ => p)) := by
  induction tags generalizing idx with
  | nil => simp
  | cons t ts ih =>
    simp only [List.foldl_cons, ih, tagIndexFind_append, List.filter_cons]
    by_cases h : pyLower t = k <;> simp [h, List.append_assoc]

theorem tagIndexContains_foldl_tags (tags : List String) (p : Product) (idx : TagIndex) (k : String) :
    tagIndexContains (tags.foldl (fun i t => tag_index_append i (pyLower t) p) idx) k =
      (tagIndexContains idx k || tags.any (fun t => pyLower t == k)) := by
  induction tags generalizing idx with
  | nil => simp
  | cons t ts ih =>
    simp only [List.foldl_cons, ih, tagIndexContains_append, List.any_cons]
    by_cases h : pyLower t = k <;> simp [h, Bool.or_comm, Bool.or_assoc]

theorem tagIndexFind_foldl_products (products : List Product) (idx : TagIndex) (k : String) :
    tagIndexFind (products.foldl insert_product idx) k =
      tagIndexFind idx k ++
        (products.map (fun p => (p.Tags.filter (fun t => pyLower t == k)).map (fun _ => p))).flatten := by
  induction products generalizing idx with
  | nil => simp
  | cons p ps ih =>
    simp only [List.foldl_cons, ih, insert_product, tagIndexFind_foldl_tags, List.map_cons,
      List.flatten_cons, List.append_assoc]

theorem tagIndexContains_foldl_products (products : List Product) (idx : TagIndex) (k : String) :
    tagIndexContains (products.foldl insert_product idx) k =
      (tagIndexContains idx k ||
        products.any (fun p => p.Tags.any (fun t => pyLower t == k))) := by
  induction products generalizing idx with
  | nil => simp
  | cons p ps ih =>
    simp only [List.foldl_cons, ih, insert_product, tagIndexContains_foldl_tags, List.any_cons,
      Bool.or_assoc]

theorem build_tag_index_find (products : List Product) (k : String) :
    tagIndexFind (build_tag_index products) k =
      (products.map (fun p => (p.Tags.filter (fun t => pyLower t == k)).map (fun _ => p))).flatten := by
  have h := tagIndexFind_foldl_products products [] k
  simpa [build_tag_index] using h

/-- C7: after startup, a key is in the tag index exactly when it is the
lowercasing of some tag of some catalog product; every product is listed
under each of its lowercased tags; and the list under a key is precisely the
catalog-ordered flattening that keeps one copy of the product per matching
tag occurrence (catalog insertion order, no deduplication across tags). -/
theorem c7_tag_index_invariants (orders : List Order) (products : List Product) :
    (∀ k, tagIndexContains (SierraAgent_init orders products).tag_index k = true ↔
        ∃ p ∈ products, ∃ t ∈ p.Tags, pyLower t = k) ∧
    (∀ p ∈ products, ∀ t ∈ p.Tags,
        p ∈ tagIndexFind (SierraAgent_init orders products).tag_index (pyLower t)) ∧
    (∀ k, tagIndexFind (SierraAgent_init orders products).tag_index k =
        (products.map (fun p => (p.Tags.filter (fun t => pyLower t == k)).map (fun _ => p))).flatten) := by
  refine ⟨?_, ?_, ?_⟩
  · intro k
    have h := tagIndexContains_foldl_products products [] k
    simp only [SierraAgent_init, build_tag_index]
    rw [h]
    simp [tagIndexContains, List.any_eq_true]
  · intro p hp t ht
    simp only [SierraAgent_init]
    rw [build_tag_index_find]
    apply List.mem_flatten.mpr
    refine ⟨(p.Tags.filter (fun t2 => pyLower t2 == pyLower t)).map (fun _ => p), ?_, ?_⟩
    · exact List.mem_map.mpr ⟨p, hp, rfl⟩
    · exact List.mem_map.mpr ⟨t, List.mem_filter.mpr ⟨ht, by simp⟩, rfl⟩
  · intro k
    simp only [SierraAgent_init]
    exact build_tag_index_find products k

theorem c7_witness :
    tagIndexContains (SierraAgent_init [] [⟨"Tent", "A tent", ["Camping", "Shelter"]⟩]).tag_index
        "camping" = true ∧
    ⟨"Tent", "A tent", ["Camping", "Shelter"]⟩ ∈
      tagIndexFind (SierraAgent_init [] [⟨"Tent", "A tent", ["Camping", "Shelter"]⟩]).tag_index
        (pyLower "Shelter") := by
  constructor
  · exact (c7_tag_index_invariants [] [⟨"Tent", "A tent", ["Camping", "Shelter"]⟩]).1 "camping"
      |>.mpr ⟨⟨"Tent", "A tent", ["Camping", "Shelter"]⟩, by decide, "Camping", by decide, by decide⟩
  · exact (c7_tag_index_invariants [] [⟨"Tent", "A tent", ["Camping", "Shelter"]⟩]).2.1
      ⟨"Tent", "A tent", ["Camping", "Shelter"]⟩ (by decide) "Shelter" (by decide)

/-! ## Defaultdict lookup and dispatch lemmas -/

theorem tagIndexGet_of_contains (idx : TagIndex) (k : String)
    (h : tagIndexContains idx k = true) :
    tagIndexGet idx k = (tagIndexFind idx k, idx) := by
  induction idx with
  | nil => simp [tagIndexContains] at h
  | cons e rest ih =>
    by_cases he : e.1 = k
    · simp [tagIndexGet, tagIndexFind, he]
    · have h2 : tagIndexContains rest k = true := by
        simpa [tagIndexContains, he] using h
      simp [tagIndexGet, tagIndexFind, he, ih h2]

theorem gatherProducts_preserves (idx : TagIndex) (ts : List String)
    (h : ∀ t ∈ ts, tagIndexContains idx t = true) :
    (gatherProducts idx ts).2 = idx := by
  induction ts with
  | nil => rfl
  | cons t ts ih =>
    simp only [gatherProducts]
    rw [tagIndexGet_of_contains idx t (h t (List.mem_cons_self t ts))]
    exact ih (fun t2 ht2 => h t2 (List.mem_cons_of_mem t ht2))

theorem handle_product_recommendation_preserves_index (gpt : String → Option String)
    (idx : TagIndex) (query : String) :
    (handle_product_recommendation gpt idx query).2.1 = idx := by
  have hv : ∀ t ∈ (extractedTags (call_gpt gpt (tag_selection_prompt_for idx query))).filter
      (fun t => tagIndexContains idx t), tagIndexContains idx t = true :=
    fun t ht => (List.mem_filter.mp ht).2
  have hg := gatherProducts_preserves idx _ hv
  simp only [handle_product_recommendation]
  split
  · simpa using hg
  · simpa using hg

theorem runHandlers_fragments (gpt : String → Option String) (inp : Inputs) (st : AgentState)
    (user_input : String) (intents : List String) :
    (runHandlers gpt inp st user_input intents).1 =
      (if intents.contains "order" then
        [handle_order_info st.orders inp.email inp.order_number] else []) ++
      (if intents.contains "recommendation" then
        [(handle_product_recommendation gpt st.tag_index user_input).1] else []) ++
      (if intents.contains "early_riser" then
        [handle_early_riser_promo inp.pacific_hour inp.uuid4] else []) := by
  simp only [runHandlers]
  cases h1 : intents.contains "order" <;> cases h2 : intents.contains "recommendation" <;>
    cases h3 : intents.contains "early_riser" <;> simp [h1, h2, h3]

theorem handle_raw_path (gpt : String → Option String) (chat : List Turn → Option String)
    (inp : Inputs) (st : AgentState) (user_input : String)
    (hc : ((runHandlers gpt inp st user_input
            (parseIntents (call_gpt gpt (intent_prompt user_input)))).1.isEmpty
          || (parseIntents (call_gpt gpt (intent_prompt user_input))).contains "general") = true) :
    (handle gpt chat inp st user_input).reply =
      (call_gpt_and_update_history chat st.history user_input).1 ∧
    (handle gpt chat inp st user_input).state.history =
      (call_gpt_and_update_history chat st.history user_input).2 := by
  simp only [handle, hc]
  exact ⟨rfl, rfl⟩

/-! ## Claims about dispatch -/

/-- C1: whenever the produced fragment list is empty or "general" is among
the parsed intents, `handle` discards all fragments and sends the raw user
utterance (not an augmented prompt) as the new message to the persona chat
path: its reply and resulting history are those of
`call_gpt_and_update_history` on the raw input. -/
theorem c1_general_or_empty_discards_fragments (gpt : String → Option String)
    (chat : List Turn → Option String) (inp : Inputs) (st : AgentState) (user_input : String)
    (h : (runHandlers gpt inp st user_input
          (parseIntents (call_gpt gpt (intent_prompt user_input)))).1 = [] ∨
         (parseIntents (call_gpt gpt (intent_prompt user_input))).contains "general" = true) :
    (handle gpt chat inp st user_input).reply =
      (call_gpt_and_update_history chat st.history user_input).1 ∧
    (handle gpt chat inp st user_input).state.history =
      (call_gpt_and_update_history chat st.history user_input).2 := by
  apply handle_raw_path
  rcases h with h | h
  · simp only [h, List.isEmpty_nil, Bool.true_or]
  · simp only [h, Bool.or_true]

theorem c1_witness :
    (handle (fun _ => some "order, general") (fun _ => some "Howdy!")
        ⟨"e@x", "W001", 9, "abcd"⟩ (SierraAgent_init [] []) "hi").reply = "Howdy!" := by
  have h := c1_general_or_empty_discards_fragments (fun _ => some "order, general")
    (fun _ => some "Howdy!") ⟨"e@x", "W001", 9, "abcd"⟩ (SierraAgent_init [] []) "hi"
    (Or.inr (by decide))
  rw [h.1]; decide

/-- C6: when at least one fragment exists and "general" was not parsed, the
message sent to the persona chat path is exactly the compiled prompt
"User question: {input}. Use the following information to best answer the
question of the user: {fragments}", the fragments joined by newlines in the fixed
priority order order, recommendation, early_riser — determined by membership
tests only, hence independent of the order of intents in the classifier
response. -/
theorem c6_compiled_prompt_fixed_priority (gpt : String → Option String)
    (chat : List Turn → Option String) (inp : Inputs) (st : AgentState) (user_input : String)
    (hg : (parseIntents (call_gpt gpt (intent_prompt user_input))).contains "general" = false)
    (hne : (runHandlers gpt inp st user_input
            (parseIntents (call_gpt gpt (intent_prompt user_input)))).1 ≠ []) :
    (handle gpt chat inp st user_input).reply =
      (call_gpt_and_update_history chat st.history
        (compiled_prompt user_input (pyJoin "\n"
          ((if (parseIntents (call_gpt gpt (intent_prompt user_input))).contains "order" then
              [handle_order_info st.orders inp.email inp.order_number] else []) ++
           (if (parseIntents (call_gpt gpt (intent_prompt user_input))).contains "recommendation" then
              [(handle_product_recommendation gpt st.tag_index user_input).1] else []) ++
           (if (parseIntents (call_gpt gpt (intent_prompt user_input))).contains "early_riser" then
              [handle_early_riser_promo inp.pacific_hour inp.uuid4] else []))))).1 ∧
    (handle gpt chat inp st user_input).state.history =
      (call_gpt_and_update_history chat st.history
        (compiled_prompt user_input (pyJoin "\n"
          ((if (parseIntents (call_gpt gpt (intent_prompt user_input))).contains "order" then
              [handle_order_info st.orders inp.email inp.order_number] else []) ++
           (if (parseIntents (call_gpt gpt (intent_prompt user_input))).contains "recommendation" then
              [(handle_product_recommendation gpt st.tag_index user_input).1] else []) ++
           (if (parseIntents (call_gpt gpt (intent_prompt user_input))).contains "early_riser" then
              [handle_early_riser_promo inp.pacific_hour inp.uuid4] else []))))).2 := by
  have hemp : (runHandlers gpt inp st user_input
      (parseIntents (call_gpt gpt (intent_prompt user_input)))).1.isEmpty = false := by
    rcases hl : (runHandlers gpt inp st user_input
        (parseIntents (call_gpt gpt (intent_prompt user_input)))).1 with _ | _
    · exact absurd hl hne
    · rfl
  have hg2 : "general" ∉ parseIntents (call_gpt gpt (intent_prompt user_input)) := by
    simpa using hg
  rw [← runHandlers_fragments gpt inp st user_input
    (parseIntents (call_gpt gpt (intent_prompt user_input)))]
  simp [handle, hemp, hg2]

theorem c6_witness :
    (handle (fun _ => some "early_riser, order") (fun _ => some "Great question!")
        ⟨"e@x", "W1", 12, "abcd"⟩ (SierraAgent_init [] []) "hi").reply = "Great question!" := by
  have h := c6_compiled_prompt_fixed_priority (fun _ => some "early_riser, order")
    (fun _ => some "Great question!") ⟨"e@x", "W1", 12, "abcd"⟩ (SierraAgent_init [] []) "hi"
    (by decide) (by decide)
  rw [h.1]; decide

/-- C9: a `handle` turn never mutates the loaded stores or the tag index:
afterwards the order list, the product list and the tag index (key set and
value lists) are unchanged — in particular the defaultdict lookups
of the recommendation handler, made only on keys that passed the membership filter,
insert no new keys.  Only the conversation history may differ. -/
theorem c9_handle_read_only_stores (gpt : String → Option String)
    (chat : List Turn → Option String) (inp : Inputs) (st : AgentState) (user_input : String) :
    (handle gpt chat inp st user_input).state.orders = st.orders ∧
    (handle gpt chat inp st user_input).state.products = st.products ∧
    (handle gpt chat inp st user_input).state.tag_index = st.tag_index := by
  have hidx : (runHandlers gpt inp st user_input
      (parseIntents (call_gpt gpt (intent_prompt user_input)))).2.1 = st.tag_index := by
    simp only [runHandlers]
    split
    · exact handle_product_recommendation_preserves_index gpt st.tag_index user_input
    · rfl
  refine ⟨?_, ?_, ?_⟩ <;> simp only [handle] <;> split <;> simp [hidx]

/-- C10: intent-token matching is case-sensitive exact comparison: when every
parsed token differs from the four lowercase labels (e.g. only case-variant
tokens such as "Order" or "GENERAL" came back), no handler fires (the
fragment list is empty), the "general" short-circuit is not triggered
(`contains "general"` is false), and the turn still routes to the persona
chat path with the raw input — via the empty-fragment rule. -/
theorem c10_intent_matching_case_sensitive (gpt : String → Option String)
    (chat : List Turn → Option String) (inp : Inputs) (st : AgentState) (user_input : String)
    (h : ∀ t ∈ parseIntents (call_gpt gpt (intent_prompt user_input)),
        t ≠ "order" ∧ t ≠ "recommendation" ∧ t ≠ "early_riser" ∧ t ≠ "general") :
    (runHandlers gpt inp st user_input
      (parseIntents (call_gpt gpt (intent_prompt user_input)))).1 = [] ∧
    (parseIntents (call_gpt gpt (intent_prompt user_input))).contains "general" = false ∧
    (handle gpt chat inp st user_input).reply =
      (call_gpt_and_update_history chat st.history user_input).1 ∧
    (handle gpt chat inp st user_input).state.history =
      (call_gpt_and_update_history chat st.history user_input).2 := by
  have ho := contains_eq_false_of_forall_ne (fun t ht => (h t ht).1)
  have hr := contains_eq_false_of_forall_ne (fun t ht => (h t ht).2.1)
  have he := contains_eq_false_of_forall_ne (fun t ht => (h t ht).2.2.1)
  have hg := contains_eq_false_of_forall_ne (fun t ht => (h t ht).2.2.2)
  have ho2 : "order" ∉ parseIntents (call_gpt gpt (intent_prompt user_input)) := by
    simpa using ho
  have hr2 : "recommendation" ∉ parseIntents (call_gpt gpt (intent_prompt user_input)) := by
    simpa using hr
  have he2 : "early_riser" ∉ parseIntents (call_gpt gpt (intent_prompt user_input)) := by
    simpa using he
  have hempty : (runHandlers gpt inp st user_input
      (parseIntents (call_gpt gpt (intent_prompt user_input)))).1 = [] := by
    rw [runHandlers_fragments]
    simp [ho2, hr2, he2]
  have hpath := handle_raw_path gpt chat inp st user_input
    (by simp only [hempty, List.isEmpty_nil, Bool.true_or])
  exact ⟨hempty, hg, hpath.1, hpath.2⟩

theorem c10_witness :
    (runHandlers (fun _ => some "Order, GENERAL") ⟨"e@x", "W1", 12, "abcd"⟩
        (SierraAgent_init [] []) "hi"
        (parseIntents (call_gpt (fun _ => some "Order, GENERAL") (intent_prompt "hi")))).1 = [] ∧
    (handle (fun _ => some "Order, GENERAL") (fun _ => some "Hello!") ⟨"e@x", "W1", 12, "abcd"⟩
        (SierraAgent_init [] []) "hi").reply = "Hello!" := by
  have h := c10_intent_matching_case_sensitive (fun _ => some "Order, GENERAL")
    (fun _ => some "Hello!") ⟨"e@x", "W1", 12, "abcd"⟩ (SierraAgent_init [] []) "hi" (by decide)
  exact ⟨h.1, by rw [h.2.2.1]; decide⟩
